import Mathlib

/-!
Shallow embedding of the signal-generation and webhook-delivery engines of
the trading_proo repository (src/main_app/signal_service.py,
src/main_app/webhook_service.py, src/main_app/models.py), together with
proofs settling the specification claims about them.

Conventions of the embedding:
* Python floats and Decimals are modelled as rationals.
* Django datetimes are modelled as integer timestamps (seconds).
* Nullable columns are modelled as Option; Python truthiness of an
  Optional numeric value (None and 0 are falsy) is made explicit.
* The database is modelled as explicit lists of records; a Django
  update/filter queryset call becomes a pure function on those lists.
* The HTTP layer is an oracle (Nat -> HttpOutcome) giving the outcome of
  the n-th POST made by a delivery attempt loop.
-/

/-- Signal types, from TradingSignal.SIGNAL_TYPE_CHOICES in models.py. -/
inductive SignalType
  | strong_sell
  | sell
  | hold
  | buy
  | strong_buy
deriving DecidableEq, Repr, Fintype

/-- Signal lifecycle states, from TradingSignal.SIGNAL_STATUS_CHOICES. -/
inductive SignalStatus
  | active
  | executed
  | expired
  | cancelled
deriving DecidableEq, Repr

/-- Subscriber states, from APISubscriber.STATUS_CHOICES. -/
inductive SubscriberStatus
  | active
  | inactive
  | suspended
  | pending
deriving DecidableEq, Repr

/-- Delivery states, from SignalDelivery.STATUS_CHOICES. -/
inductive DeliveryStatus
  | pending
  | delivered
  | failed
  | retrying
deriving DecidableEq, Repr

/-- GPT sentiment labels used on NewsArticle.gpt_sentiment. -/
inductive Sentiment
  | positive
  | negative
  | neutral
deriving DecidableEq, Repr

/-- GPT impact labels used on NewsArticle.gpt_impact. -/
inductive Impact
  | high
  | medium
  | low
deriving DecidableEq, Repr

/-- Models the Python substring test ('strong' in type_string) on the five
signal-type strings of SIGNAL_TYPE_CHOICES: it holds exactly for
strong_buy and strong_sell. -/
def isStrong : SignalType → Bool
  | SignalType.strong_buy => true
  | SignalType.strong_sell => true
  | _ => false

/-- Models the Python membership test (t in two-element-list) for the
buy family, as written in signal_service.py lines 541 and 637. -/
def isBuyFamily (t : SignalType) : Bool :=
  t == SignalType.buy || t == SignalType.strong_buy

/-- Models the Python membership test for the sell family
(signal_service.py line 544). -/
def isSellFamily (t : SignalType) : Bool :=
  t == SignalType.sell || t == SignalType.strong_sell

/-- Embeds SignalGenerator._combine_signal_types (signal_service.py
lines 528-548): equal types pass through; a lone strong side wins; two
same-direction types merge (strong if either is strong); anything else
falls to hold. -/
def combine_signal_types (gpt_type technical_type : SignalType) : SignalType :=
  if gpt_type == technical_type then gpt_type
  else if isStrong gpt_type && !isStrong technical_type then gpt_type
  else if isStrong technical_type && !isStrong gpt_type then technical_type
  else if isBuyFamily gpt_type && isBuyFamily technical_type then
    (if isStrong gpt_type || isStrong technical_type then SignalType.strong_buy
     else SignalType.buy)
  else if isSellFamily gpt_type && isSellFamily technical_type then
    (if isStrong gpt_type || isStrong technical_type then SignalType.strong_sell
     else SignalType.sell)
  else SignalType.hold

/-- C1 counterexample: a buy-family gpt type against a sell-family
technical type does not always fuse to hold: buy versus strong_sell
fuses to strong_sell, because the lone-strong-side rule fires before the
conflicting-directions fallback. -/
theorem combine_opposed_counterexample :
    isBuyFamily SignalType.buy = true ∧
    isSellFamily SignalType.strong_sell = true ∧
    combine_signal_types SignalType.buy SignalType.strong_sell ≠ SignalType.hold := by
  decide

/-- C1 (amended): for opposed directions (gpt side in the buy family,
technical side in the sell family), the fused type is hold when neither
or both sides are strong; when exactly one side is strong, that strong
side's type is returned. -/
theorem combine_opposed_amended :
    ∀ gpt_type technical_type : SignalType,
      isBuyFamily gpt_type = true →
      isSellFamily technical_type = true →
      combine_signal_types gpt_type technical_type =
        (if isStrong gpt_type && !isStrong technical_type then gpt_type
         else if isStrong technical_type && !isStrong gpt_type then technical_type
         else SignalType.hold) := by
  decide

/-- Witness for the amended C1 theorem at the concrete pair
(buy, strong_sell), whose fusion is strong_sell. -/
theorem combine_opposed_amended_witness :
    combine_signal_types SignalType.buy SignalType.strong_sell = SignalType.strong_sell := by
  have h := combine_opposed_amended SignalType.buy SignalType.strong_sell (by decide) (by decide)
  simpa using h

/-- Ticker identity, from MarketTicker in models.py (fields beyond the
symbol are irrelevant to the verified operations). -/
structure MarketTickerRec where
  symbol : String
  exchange : String
deriving DecidableEq, Repr

/-- Subscriber record, from APISubscriber in models.py. webhook_url is a
URLField with blank allowed and no null, so an unset URL is the empty
string, never NULL. min_confidence_threshold is a Decimal in [0,1]. -/
structure Subscriber where
  id : Nat
  name : String
  webhook_url : String
  api_key : String
  secret_key : String
  status : SubscriberStatus
  subscribed_tickers : List String
  min_confidence_threshold : ℚ
  signal_types : List SignalType
deriving DecidableEq, Repr

/-- Trading-signal row, from TradingSignal in models.py, restricted to
the columns the verified operations read or write. ticker is a
non-nullable foreign key. -/
structure SignalRow where
  id : Nat
  ticker : MarketTickerRec
  signal_type : SignalType
  confidence : ℚ
  status : SignalStatus
  expiry_time : Option Int
  execution_price : Option ℚ
  target_price : Option ℚ
  performance_score : Option ℚ
deriving DecidableEq, Repr

/-- Python exception raised by evaluating an unbound name. -/
inductive PyExn
  | nameError (name : String)
deriving DecidableEq, Repr

/-- Embeds the subscriber pre-selection of
WebhookDeliveryService.deliver_signal_to_all_subscribers
(webhook_service.py lines 155-158): status must be active and
webhook_url non-empty (the isnull filter never excludes anything since
the column is not nullable). -/
def active_webhook_subscribers (subs : List Subscriber) : List Subscriber :=
  subs.filter (fun s => s.status == SubscriberStatus.active && s.webhook_url != "")

/-- Embeds WebhookDeliveryService.deliver_signal_to_all_subscribers
(webhook_service.py lines 150-190). After the pre-selection the code
reaches the branch guarded by signal.ticker; the ticker column is a
non-nullable foreign key, so the branch is always taken, and its body
evaluates Q(subscribed_tickers__contains=[signal.ticker]) even though
the name Q is never imported in webhook_service.py. Evaluation therefore
raises NameError before any filter is applied or any delivery attempted. -/
def deliver_signal_to_all_subscribers (subs : List Subscriber) (_signal : SignalRow) :
    Except PyExn (List (String × Bool)) :=
  let _subscribers := active_webhook_subscribers subs
  Except.error (PyExn.nameError "Q")

/-- C2 (code bug): for every subscriber list and every signal, the
deliver-to-all operation raises NameError on the unbound name Q instead
of filtering subscribers and attempting deliveries, so no subscriber is
ever selected and no delivery is ever attempted by it. -/
theorem deliver_all_raises_name_error (subs : List Subscriber) (signal : SignalRow) :
    deliver_signal_to_all_subscribers subs signal = Except.error (PyExn.nameError "Q") := rfl

/-- News-article row, from NewsArticle in models.py, restricted to the
fields the verified operations read. gpt fields are the analysis
annotations; unset or empty classification text is modelled as none. -/
structure Article where
  title : String
  content : String
  summary : String
  scraped_date : Int
  gpt_sentiment : Option Sentiment
  gpt_sentiment_confidence : Option ℚ
  gpt_impact : Option Impact
  gpt_impact_confidence : Option ℚ
deriving DecidableEq, Repr

/-- Substring containment on character lists: the needle occurs
contiguously somewhere in the haystack. This is the Python operator
(needle in haystack) on strings. -/
def charsContains (hay needle : List Char) : Bool :=
  match hay with
  | [] => needle.isEmpty
  | _ :: t => needle.isPrefixOf hay || charsContains t needle

/-- Case-sensitive substring containment on strings (the semantics of a
Django contains lookup). -/
def strContains (hay needle : String) : Bool :=
  charsContains hay.data needle.data

/-- Case-insensitive substring containment on strings (the semantics of
a Django icontains lookup, which lower-cases both sides). -/
def strContainsCI (hay needle : String) : Bool :=
  charsContains (hay.data.map Char.toLower) (needle.data.map Char.toLower)

/-- Embeds the article filter of SignalGenerator._get_recent_articles
(signal_service.py lines 81-84): the ticker symbol must occur in the
title, the content or the summary under an icontains lookup, which is
case-insensitive. -/
def article_matches_ticker (a : Article) (ticker_symbol : String) : Bool :=
  strContainsCI a.title ticker_symbol ||
  strContainsCI a.content ticker_symbol ||
  strContainsCI a.summary ticker_symbol

/-- Seconds in a day, to express timedelta(days=n) on integer
timestamps. -/
def seconds_per_day : Int := 86400

/-- Newest-first comparison on scraped_date (the order_by of
_get_recent_articles). -/
def scrapedDesc (a b : Article) : Prop := b.scraped_date ≤ a.scraped_date

instance : DecidableRel scrapedDesc := fun a b =>
  inferInstanceAs (Decidable (b.scraped_date ≤ a.scraped_date))

/-- Embeds SignalGenerator._get_recent_articles (signal_service.py
lines 76-88): articles whose title, content or summary icontains the
ticker symbol and whose scraped_date is at least now minus the cutoff
window, ordered newest-first, truncated to 10. -/
def get_recent_articles (now : Int) (articles : List Article)
    (ticker_symbol : String) (days : Int) : List Article :=
  let cutoff := now - days * seconds_per_day
  let matching := articles.filter
    (fun a => article_matches_ticker a ticker_symbol && decide (cutoff ≤ a.scraped_date))
  (List.insertionSort scrapedDesc matching).take 10

/-- Concrete article whose only mention of the ticker is lower-case. -/
def articleLower : Article :=
  { title := "aapl beats earnings estimates"
  , content := "shares of the company rallied"
  , summary := "strong quarter"
  , scraped_date := 999999
  , gpt_sentiment := some Sentiment.positive
  , gpt_sentiment_confidence := none
  , gpt_impact := some Impact.high
  , gpt_impact_confidence := none
  }

/-- C3 counterexample: with the ticker symbol AAPL, an article whose
fields mention the ticker only in lower case is selected by the
article-selection operation, although none of its fields contains AAPL
as a case-sensitive substring: the selection filter is case-insensitive. -/
theorem get_recent_articles_counterexample :
    articleLower ∈ get_recent_articles 1000000 [articleLower] "AAPL" 7 ∧
    strContains articleLower.title "AAPL" = false ∧
    strContains articleLower.content "AAPL" = false ∧
    strContains articleLower.summary "AAPL" = false := by
  decide

instance : IsTrans Article scrapedDesc :=
  ⟨fun _ _ _ hab hbc => le_trans hbc hab⟩

instance : IsTotal Article scrapedDesc :=
  ⟨fun a b => le_total b.scraped_date a.scraped_date⟩

/-- C3 (amended): the article-selection operation returns exactly
min(10, number of qualifiers) articles; every returned article lies in
the last days-long window and mentions the ticker symbol as a
case-insensitive substring of its title, content or summary; whenever at
most 10 articles qualify, every qualifying article is returned; and the
returned articles are the most recent qualifiers: a qualifying article
that is not returned is no more recent than any returned one. -/
theorem get_recent_articles_amended (now : Int) (articles : List Article)
    (ticker_symbol : String) (days : Int) :
    (get_recent_articles now articles ticker_symbol days).length ≤ 10 ∧
    (∀ a, a ∈ get_recent_articles now articles ticker_symbol days →
      article_matches_ticker a ticker_symbol = true ∧
      now - days * seconds_per_day ≤ a.scraped_date) ∧
    ((articles.filter (fun a => article_matches_ticker a ticker_symbol &&
        decide (now - days * seconds_per_day ≤ a.scraped_date))).length ≤ 10 →
      ∀ a ∈ articles, article_matches_ticker a ticker_symbol = true →
        now - days * seconds_per_day ≤ a.scraped_date →
        a ∈ get_recent_articles now articles ticker_symbol days) ∧
    (get_recent_articles now articles ticker_symbol days).length =
      min 10 (articles.filter (fun a => article_matches_ticker a ticker_symbol &&
        decide (now - days * seconds_per_day ≤ a.scraped_date))).length ∧
    (∀ a, a ∈ get_recent_articles now articles ticker_symbol days →
      ∀ b ∈ articles, article_matches_ticker b ticker_symbol = true →
        now - days * seconds_per_day ≤ b.scraped_date →
        b ∉ get_recent_articles now articles ticker_symbol days →
        b.scraped_date ≤ a.scraped_date) := by
  refine ⟨List.length_take_le 10 _, fun a ha => ?_, fun hlen a ha hm hd => ?_, ?_,
    fun a ha b hb hbm hbd hnb => ?_⟩
  · have hmem : a ∈ List.insertionSort scrapedDesc
        (articles.filter (fun a => article_matches_ticker a ticker_symbol &&
          decide (now - days * seconds_per_day ≤ a.scraped_date))) :=
      List.mem_of_mem_take ha
    have hfil := (List.perm_insertionSort scrapedDesc _).mem_iff.mp hmem
    have hp := List.of_mem_filter hfil
    have hp' := Bool.and_eq_true_iff.mp hp
    exact ⟨hp'.1, by simpa using of_decide_eq_true hp'.2⟩
  · have hfil : a ∈ articles.filter (fun a => article_matches_ticker a ticker_symbol &&
        decide (now - days * seconds_per_day ≤ a.scraped_date)) :=
      List.mem_filter.mpr ⟨ha, by simp [hm, hd]⟩
    have hmem : a ∈ List.insertionSort scrapedDesc
        (articles.filter (fun a => article_matches_ticker a ticker_symbol &&
          decide (now - days * seconds_per_day ≤ a.scraped_date))) :=
      (List.perm_insertionSort scrapedDesc _).mem_iff.mpr hfil
    have hlen' : (List.insertionSort scrapedDesc
        (articles.filter (fun a => article_matches_ticker a ticker_symbol &&
          decide (now - days * seconds_per_day ≤ a.scraped_date)))).length ≤ 10 := by
      rw [(List.perm_insertionSort scrapedDesc _).length_eq]
      exact hlen
    show a ∈ (List.insertionSort scrapedDesc _).take 10
    rw [List.take_of_length_le hlen']
    exact hmem
  · rw [show get_recent_articles now articles ticker_symbol days =
        (List.insertionSort scrapedDesc (articles.filter
          (fun a => article_matches_ticker a ticker_symbol &&
            decide (now - days * seconds_per_day ≤ a.scraped_date)))).take 10 from rfl,
      List.length_take, (List.perm_insertionSort scrapedDesc _).length_eq]
  · have hq : b ∈ articles.filter (fun a => article_matches_ticker a ticker_symbol &&
        decide (now - days * seconds_per_day ≤ a.scraped_date)) :=
      List.mem_filter.mpr ⟨hb, by simp [hbm, hbd]⟩
    have hsorted : List.Sorted scrapedDesc (List.insertionSort scrapedDesc
        (articles.filter (fun a => article_matches_ticker a ticker_symbol &&
          decide (now - days * seconds_per_day ≤ a.scraped_date)))) :=
      List.sorted_insertionSort scrapedDesc _
    have hpw : List.Pairwise scrapedDesc
        ((List.insertionSort scrapedDesc (articles.filter
            (fun a => article_matches_ticker a ticker_symbol &&
              decide (now - days * seconds_per_day ≤ a.scraped_date)))).take 10 ++
         (List.insertionSort scrapedDesc (articles.filter
            (fun a => article_matches_ticker a ticker_symbol &&
              decide (now - days * seconds_per_day ≤ a.scraped_date)))).drop 10) := by
      rw [List.take_append_drop]
      exact hsorted
    have hdom := (List.pairwise_append.mp hpw).2.2
    have hbmem : b ∈ List.insertionSort scrapedDesc
        (articles.filter (fun a => article_matches_ticker a ticker_symbol &&
          decide (now - days * seconds_per_day ≤ a.scraped_date))) :=
      (List.perm_insertionSort scrapedDesc _).mem_iff.mpr hq
    have hbsplit : b ∈ (List.insertionSort scrapedDesc (articles.filter
        (fun a => article_matches_ticker a ticker_symbol &&
          decide (now - days * seconds_per_day ≤ a.scraped_date)))).take 10 ++
        (List.insertionSort scrapedDesc (articles.filter
          (fun a => article_matches_ticker a ticker_symbol &&
            decide (now - days * seconds_per_day ≤ a.scraped_date)))).drop 10 := by
      rw [List.take_append_drop]
      exact hbmem
    rcases List.mem_append.mp hbsplit with hbt | hbdrop
    · exact absurd hbt hnb
    · exact hdom a ha b hbdrop

/-- Recent qualifying article number n, dated 999000 + n, for the
more-than-10-qualifiers scenario. -/
def articleAt (n : Nat) : Article :=
  { title := "AAPL", content := "", summary := "", scraped_date := 999000 + n
  , gpt_sentiment := none, gpt_sentiment_confidence := none
  , gpt_impact := none, gpt_impact_confidence := none }

/-- Eleven qualifying articles, so that exactly one must be left out. -/
def elevenArticles : List Article := (List.range 11).map articleAt

/-- Witness for the amended C3 theorem: the one-article selection
returns at most 10 articles, the selected article matches the ticker
case-insensitively inside the 7-day window and is returned; and with
eleven qualifiers the selection returns min 10 eleven of them, and the
omitted oldest qualifier is no more recent than the returned newest. -/
theorem get_recent_articles_amended_witness :
    (get_recent_articles 1000000 [articleLower] "AAPL" 7).length ≤ 10 ∧
    (article_matches_ticker articleLower "AAPL" = true ∧
      (1000000 : Int) - 7 * seconds_per_day ≤ articleLower.scraped_date) ∧
    articleLower ∈ get_recent_articles 1000000 [articleLower] "AAPL" 7 ∧
    (get_recent_articles 1000000 elevenArticles "AAPL" 7).length =
      min 10 (elevenArticles.filter (fun a => article_matches_ticker a "AAPL" &&
        decide ((1000000 : Int) - 7 * seconds_per_day ≤ a.scraped_date))).length ∧
    (articleAt 0).scraped_date ≤ (articleAt 10).scraped_date :=
  ⟨(get_recent_articles_amended 1000000 [articleLower] "AAPL" 7).1,
   (get_recent_articles_amended 1000000 [articleLower] "AAPL" 7).2.1 articleLower (by decide),
   (get_recent_articles_amended 1000000 [articleLower] "AAPL" 7).2.2.1 (by decide)
     articleLower (by decide) (by decide) (by decide),
   (get_recent_articles_amended 1000000 elevenArticles "AAPL" 7).2.2.2.1,
   (get_recent_articles_amended 1000000 elevenArticles "AAPL" 7).2.2.2.2
     (articleAt 10) (by decide) (articleAt 0) (by decide) (by decide) (by decide) (by decide)⟩

/-- Arithmetic mean of a list of rationals (np.mean); division by a zero
length never arises at the call sites proved about. -/
def listMean (l : List ℚ) : ℚ := l.sum / (l.length : ℚ)

/-- Embeds the Python slice l[-period:], which keeps the trailing period
elements (the whole list when it is shorter than period). -/
def pyLastSlice (l : List ℚ) (period : Nat) : List ℚ := l.drop (l.length - period)

/-- RSI window length, the default period=14 of _calculate_rsi. -/
def rsi_period : Nat := 14

/-- Embeds the delta list of _calculate_rsi (signal_service.py line 454):
consecutive price differences prices[i] - prices[i-1]. -/
def rsi_deltas (prices : List ℚ) : List ℚ :=
  (prices.tail.zip prices).map (fun q => q.1 - q.2)

/-- Embeds gains = [d if d > 0 else 0 for d in deltas]. -/
def rsi_gains (prices : List ℚ) : List ℚ :=
  (rsi_deltas prices).map (fun d => if 0 < d then d else 0)

/-- Embeds losses = [-d if d < 0 else 0 for d in deltas]. -/
def rsi_losses (prices : List ℚ) : List ℚ :=
  (rsi_deltas prices).map (fun d => if d < 0 then -d else 0)

/-- Trailing average gain of _calculate_rsi. -/
def rsi_avg_gain (prices : List ℚ) : ℚ :=
  listMean (pyLastSlice (rsi_gains prices) rsi_period)

/-- Trailing average loss of _calculate_rsi. -/
def rsi_avg_loss (prices : List ℚ) : ℚ :=
  listMean (pyLastSlice (rsi_losses prices) rsi_period)

/-- Embeds SignalGenerator._calculate_rsi (signal_service.py lines
449-467) at its default period 14: neutral 50 with fewer than 15 prices,
100 when the trailing average loss is zero, otherwise
100 - 100 / (1 + avg_gain / avg_loss). -/
def calculate_rsi (prices : List ℚ) : ℚ :=
  if prices.length < rsi_period + 1 then 50
  else if rsi_avg_loss prices = 0 then 100
  else 100 - 100 / (1 + rsi_avg_gain prices / rsi_avg_loss prices)

lemma rsi_gains_nonneg (prices : List ℚ) : ∀ x ∈ rsi_gains prices, 0 ≤ x := by
  intro x hx
  rcases List.mem_map.mp hx with ⟨d, _, rfl⟩
  split
  · linarith
  · exact le_refl 0

lemma rsi_losses_nonneg (prices : List ℚ) : ∀ x ∈ rsi_losses prices, 0 ≤ x := by
  intro x hx
  rcases List.mem_map.mp hx with ⟨d, _, rfl⟩
  split
  · linarith
  · exact le_refl 0

lemma rsi_avg_gain_nonneg (prices : List ℚ) : 0 ≤ rsi_avg_gain prices := by
  unfold rsi_avg_gain listMean
  apply div_nonneg
  · exact List.sum_nonneg
      (fun x hx => rsi_gains_nonneg prices x (List.mem_of_mem_drop hx))
  · exact_mod_cast Nat.zero_le _

lemma rsi_avg_loss_nonneg (prices : List ℚ) : 0 ≤ rsi_avg_loss prices := by
  unfold rsi_avg_loss listMean
  apply div_nonneg
  · exact List.sum_nonneg
      (fun x hx => rsi_losses_nonneg prices x (List.mem_of_mem_drop hx))
  · exact_mod_cast Nat.zero_le _

lemma chain_zip_lt (l : List ℚ) (h : l.Chain' (fun a b : ℚ => a < b)) :
    ∀ q ∈ l.tail.zip l, q.2 < q.1 := by
  induction l with
  | nil => intro q hq; simp at hq
  | cons a t ih =>
    intro q hq
    cases t with
    | nil => simp at hq
    | cons b m =>
      rw [List.tail_cons, List.zip_cons_cons] at hq
      rcases List.mem_cons.mp hq with h1 | h1
      · subst h1
        exact (List.chain'_cons.mp h).1
      · exact ih (List.chain'_cons.mp h).2 q h1

lemma rsi_losses_zero_of_increasing (prices : List ℚ)
    (h : prices.Chain' (fun a b : ℚ => a < b)) : ∀ x ∈ rsi_losses prices, x = 0 := by
  intro x hx
  rcases List.mem_map.mp hx with ⟨d, hd, rfl⟩
  rcases List.mem_map.mp hd with ⟨q, hq, rfl⟩
  have hlt : q.2 < q.1 := chain_zip_lt prices h q hq
  rw [if_neg (by linarith)]

lemma rsi_avg_loss_zero_of_increasing (prices : List ℚ)
    (h : prices.Chain' (fun a b : ℚ => a < b)) : rsi_avg_loss prices = 0 := by
  unfold rsi_avg_loss listMean pyLastSlice
  rw [List.sum_eq_zero
    (fun x hx => rsi_losses_zero_of_increasing prices h x (List.mem_of_mem_drop hx))]
  exact zero_div _

/-- C6: the RSI computation at period 14 always yields a value in
[0, 100]; with fewer than 15 prices it yields exactly 50; and on a
strictly increasing price list of at least 15 prices (all deltas are
gains, so the trailing average loss is zero) it yields exactly 100. -/
theorem calculate_rsi_spec :
    (∀ prices : List ℚ, 0 ≤ calculate_rsi prices ∧ calculate_rsi prices ≤ 100) ∧
    (∀ prices : List ℚ, prices.length < 15 → calculate_rsi prices = 50) ∧
    (∀ prices : List ℚ, 15 ≤ prices.length →
      prices.Chain' (fun a b : ℚ => a < b) → calculate_rsi prices = 100) := by
  refine ⟨fun prices => ?_, fun prices h => ?_, fun prices hlen hchain => ?_⟩
  · unfold calculate_rsi
    split_ifs with h1 h2
    · norm_num
    · norm_num
    · have hl0 : 0 ≤ rsi_avg_loss prices := rsi_avg_loss_nonneg prices
      have hl : 0 < rsi_avg_loss prices := lt_of_le_of_ne hl0 (Ne.symm h2)
      have hg : 0 ≤ rsi_avg_gain prices := rsi_avg_gain_nonneg prices
      have hrs : 0 ≤ rsi_avg_gain prices / rsi_avg_loss prices := div_nonneg hg hl0
      have hup : (100 : ℚ) / (1 + rsi_avg_gain prices / rsi_avg_loss prices) ≤ 100 :=
        div_le_self (by norm_num) (by linarith)
      have hdn : (0 : ℚ) < 100 / (1 + rsi_avg_gain prices / rsi_avg_loss prices) :=
        div_pos (by norm_num) (by linarith)
      constructor <;> linarith
  · unfold calculate_rsi
    rw [if_pos]
    unfold rsi_period
    omega
  · unfold calculate_rsi
    rw [if_neg (by unfold rsi_period; omega),
      if_pos (rsi_avg_loss_zero_of_increasing prices hchain)]

/-- Concrete short price list for the witness (3 prices). -/
def rsiPricesShort : List ℚ := [1, 2, 3]

/-- Concrete strictly increasing price list of 15 prices. -/
def rsiPricesInc : List ℚ := [1, 2, 3, 4, 5, 6, 7, 8, 9, 10, 11, 12, 13, 14, 15]

/-- Witness for the C6 theorem: bounds at a concrete list, the neutral
value at a 3-price list, and the all-gains value at a 15-price strictly
increasing list. -/
theorem calculate_rsi_spec_witness :
    (0 ≤ calculate_rsi rsiPricesShort ∧ calculate_rsi rsiPricesShort ≤ 100) ∧
    calculate_rsi rsiPricesShort = 50 ∧ calculate_rsi rsiPricesInc = 100 :=
  ⟨calculate_rsi_spec.1 rsiPricesShort,
   calculate_rsi_spec.2.1 rsiPricesShort (by decide),
   calculate_rsi_spec.2.2 rsiPricesInc (by decide)
     (by simp [rsiPricesInc, List.chain'_cons]; norm_num)⟩

/-- Embeds the row predicate of SignalManager.expire_old_signals
(signal_service.py lines 630-633): status active and expiry_time
strictly before now; a NULL expiry_time never satisfies the SQL
comparison. -/
def signal_expiry_due (now : Int) (s : SignalRow) : Bool :=
  s.status == SignalStatus.active &&
    (match s.expiry_time with
     | some e => decide (e < now)
     | none => false)

/-- Embeds SignalManager.expire_old_signals (signal_service.py lines
627-636): the bulk update sets status expired on every row satisfying
the predicate and returns the number of rows it matched. -/
def expire_old_signals (now : Int) (db : List SignalRow) : Nat × List SignalRow :=
  ((db.filter (signal_expiry_due now)).length,
   db.map (fun s =>
     if signal_expiry_due now s then { s with status := SignalStatus.expired } else s))

lemma signal_expiry_due_after (now : Int) (db : List SignalRow) :
    ∀ s ∈ (expire_old_signals now db).2, signal_expiry_due now s = false := by
  intro s hs
  rcases List.mem_map.mp hs with ⟨t, _, rfl⟩
  by_cases h : signal_expiry_due now t = true
  · rw [if_pos h]
    simp [signal_expiry_due]
  · rw [if_neg h]
    exact Bool.not_eq_true _ ▸ h

/-- C7: the bulk expiry returns the count of the rows it matched,
transitions exactly the active rows with a passed expiry_time to
expired (every matched row reappears expired, every unmatched row is
unchanged), and is idempotent: run again on its own output with the
same clock and no new expirations, it returns 0 and changes no row. -/
theorem expire_old_signals_spec (now : Int) (db : List SignalRow) :
    (expire_old_signals now db).1 = (db.filter (signal_expiry_due now)).length ∧
    (∀ s ∈ db, signal_expiry_due now s = true →
      { s with status := SignalStatus.expired } ∈ (expire_old_signals now db).2) ∧
    (∀ s ∈ db, signal_expiry_due now s = false → s ∈ (expire_old_signals now db).2) ∧
    expire_old_signals now ((expire_old_signals now db).2) =
      (0, (expire_old_signals now db).2) := by
  refine ⟨rfl, fun s hs h => ?_, fun s hs h => ?_, ?_⟩
  · refine List.mem_map.mpr ⟨s, hs, ?_⟩
    simp [h]
  · refine List.mem_map.mpr ⟨s, hs, ?_⟩
    simp [h]
  · have hall := signal_expiry_due_after now db
    have hfil : ((expire_old_signals now db).2.filter (signal_expiry_due now)) = [] := by
      rw [List.filter_eq_nil_iff]
      intro a ha
      simp [hall a ha]
    have hmap : ((expire_old_signals now db).2.map (fun s =>
        if signal_expiry_due now s then { s with status := SignalStatus.expired } else s)) =
        (expire_old_signals now db).2 := by
      have : ∀ s ∈ (expire_old_signals now db).2,
          (if signal_expiry_due now s then
            { s with status := SignalStatus.expired } else s) = s := by
        intro s hs
        rw [if_neg (by simp [hall s hs])]
      calc ((expire_old_signals now db).2.map (fun s =>
              if signal_expiry_due now s then
                { s with status := SignalStatus.expired } else s))
          = (expire_old_signals now db).2.map id := List.map_congr_left this
        _ = (expire_old_signals now db).2 := List.map_id _
    show ((((expire_old_signals now db).2.filter (signal_expiry_due now))).length, _) = _
    rw [hfil, hmap]
    rfl

/-- Concrete signal rows for the C7 witness: one active and past expiry,
one active and not yet expired. -/
def sigDue : SignalRow :=
  { id := 1, ticker := { symbol := "AAPL", exchange := "SMART" }
  , signal_type := SignalType.buy, confidence := 1
  , status := SignalStatus.active, expiry_time := some 50
  , execution_price := none, target_price := none, performance_score := none }

/-- Second concrete signal row for the C7 witness. -/
def sigFresh : SignalRow :=
  { id := 2, ticker := { symbol := "MSFT", exchange := "SMART" }
  , signal_type := SignalType.sell, confidence := 1
  , status := SignalStatus.active, expiry_time := some 500
  , execution_price := none, target_price := none, performance_score := none }

/-- Witness for the C7 theorem at a concrete two-row table and clock 100:
the due row reappears expired, the fresh row is untouched, and the
second run returns 0 changing nothing. -/
theorem expire_old_signals_spec_witness :
    (expire_old_signals 100 [sigDue, sigFresh]).1 =
      ([sigDue, sigFresh].filter (signal_expiry_due 100)).length ∧
    { sigDue with status := SignalStatus.expired } ∈ (expire_old_signals 100 [sigDue, sigFresh]).2 ∧
    sigFresh ∈ (expire_old_signals 100 [sigDue, sigFresh]).2 ∧
    expire_old_signals 100 ((expire_old_signals 100 [sigDue, sigFresh]).2) =
      (0, (expire_old_signals 100 [sigDue, sigFresh]).2) :=
  ⟨(expire_old_signals_spec 100 [sigDue, sigFresh]).1,
   (expire_old_signals_spec 100 [sigDue, sigFresh]).2.1 sigDue (by simp)
     (by simp [signal_expiry_due, sigDue]),
   (expire_old_signals_spec 100 [sigDue, sigFresh]).2.2.1 sigFresh (by simp)
     (by simp [signal_expiry_due, sigFresh]),
   (expire_old_signals_spec 100 [sigDue, sigFresh]).2.2.2⟩

/-- Python truthiness of an Optional Decimal: None is falsy, and so is a
zero value. This is the test the guard of
TradingSignal.calculate_performance performs on execution_price and
target_price (models.py line 636). -/
def decimalTruthy : Option ℚ → Bool
  | none => false
  | some x => !(x == 0)

/-- Embeds TradingSignal.calculate_performance (models.py lines
634-645): when both prices are truthy, performance is
(target - execution) / execution for buy-family types and
(execution - target) / execution otherwise; the value is persisted as
performance_score and returned. Otherwise None is returned and the row
is untouched. -/
def calculate_performance (s : SignalRow) : Option ℚ × SignalRow :=
  if decimalTruthy s.execution_price && decimalTruthy s.target_price then
    let ex := s.execution_price.getD 0
    let tg := s.target_price.getD 0
    let perf := if isBuyFamily s.signal_type then (tg - ex) / ex else (ex - tg) / ex
    (some perf, { s with performance_score := some perf })
  else (none, s)

/-- Concrete executed buy signal whose target_price is the set value 0,
so that both prices are set (non-None) yet the zero is falsy. -/
def sigZeroTarget : SignalRow :=
  { id := 3, ticker := { symbol := "AAPL", exchange := "SMART" }
  , signal_type := SignalType.buy, confidence := 1
  , status := SignalStatus.executed, expiry_time := none
  , execution_price := some 100, target_price := some 0, performance_score := none }

/-- C8 counterexample: on a buy signal with execution_price set to 100
and target_price set to 0, the computation returns None and changes
nothing, although both prices are set: the guard tests Python
truthiness, under which a set Decimal 0 counts as unset. -/
theorem calculate_performance_counterexample :
    sigZeroTarget.execution_price = some 100 ∧
    sigZeroTarget.target_price = some 0 ∧
    calculate_performance sigZeroTarget = (none, sigZeroTarget) := by
  refine ⟨rfl, rfl, ?_⟩
  rw [calculate_performance, if_neg]
  simp [decimalTruthy, sigZeroTarget]

/-- C8 (amended): calculate_performance returns None and leaves the
signal unchanged unless both execution_price and target_price are set
and non-zero; when both are set and non-zero it computes
(target - execution) / execution for buy and strong_buy and
(execution - target) / execution for all other types, persists it as
performance_score, and returns it. -/
theorem calculate_performance_amended :
    (∀ (s : SignalRow) (ex tg : ℚ),
      s.execution_price = some ex → ex ≠ 0 →
      s.target_price = some tg → tg ≠ 0 →
      calculate_performance s =
        (some (if isBuyFamily s.signal_type then (tg - ex) / ex else (ex - tg) / ex),
         { s with
             performance_score :=
               some (if isBuyFamily s.signal_type then (tg - ex) / ex
                 else (ex - tg) / ex) })) ∧
    (∀ s : SignalRow,
      (decimalTruthy s.execution_price && decimalTruthy s.target_price) = false →
      calculate_performance s = (none, s)) := by
  constructor
  · intro s ex tg hex hexne htg htgne
    rw [calculate_performance, if_pos]
    · rw [hex, htg]
      rfl
    · rw [hex, htg]
      simp [decimalTruthy, hexne, htgne]
  · intro s h
    rw [calculate_performance, if_neg]
    simp [h]

/-- Concrete executed buy signal with both prices set and non-zero. -/
def sigExecuted : SignalRow :=
  { id := 4, ticker := { symbol := "AAPL", exchange := "SMART" }
  , signal_type := SignalType.buy, confidence := 1
  , status := SignalStatus.executed, expiry_time := none
  , execution_price := some 100, target_price := some 110, performance_score := none }

/-- Witness for the amended C8 theorem: the concrete executed buy signal
gets its performance computed and persisted, and the zero-target signal
falls into the untouched branch. -/
theorem calculate_performance_amended_witness :
    calculate_performance sigExecuted =
      (some (if isBuyFamily sigExecuted.signal_type
              then ((110 : ℚ) - 100) / 100 else ((100 : ℚ) - 110) / 100),
       { sigExecuted with
           performance_score :=
             some (if isBuyFamily sigExecuted.signal_type
               then ((110 : ℚ) - 100) / 100 else ((100 : ℚ) - 110) / 100) }) ∧
    calculate_performance sigZeroTarget = (none, sigZeroTarget) :=
  ⟨calculate_performance_amended.1 sigExecuted 100 110 rfl (by norm_num) rfl (by norm_num),
   calculate_performance_amended.2 sigZeroTarget
     (by simp [decimalTruthy, sigZeroTarget])⟩

/-- Delivery record, from SignalDelivery in models.py, restricted to the
columns the retry loop reads or writes. -/
structure Delivery where
  status : DeliveryStatus
  delivery_attempts : Nat
  last_attempt : Option Int
  next_retry : Option Int
  error_message : String
  delivered_at : Option Int
deriving DecidableEq, Repr

/-- Outcome of one HTTP POST: either a response with a status code and
body text, or a requests exception with a message. -/
inductive HttpOutcome
  | response (status_code : Nat) (text : String)
  | exn (msg : String)
deriving DecidableEq, Repr

/-- The success test of the attempt loop: response.status_code == 200;
an exception is never a success. -/
def isSuccess200 : HttpOutcome → Bool
  | HttpOutcome.response code _ => code == 200
  | HttpOutcome.exn _ => false

/-- Error text recorded on a failed attempt, following the two except
branches of _deliver_webhook (webhook_service.py lines 123 and 130). -/
def failMsg : HttpOutcome → String
  | HttpOutcome.response code text => "HTTP " ++ toString code ++ ": " ++ text
  | HttpOutcome.exn msg => "Request error: " ++ msg

/-- self.max_retry_attempts from WebhookDeliveryService.__init__. -/
def max_retry_attempts : Nat := 5

/-- self.retry_delays from WebhookDeliveryService.__init__ (seconds). -/
def retry_delays : List Nat := [1, 5, 15, 60, 300]

/-- Start-of-attempt bookkeeping of the loop body (webhook_service.py
lines 102-105): increment the attempt counter, stamp last_attempt, set
status retrying after the first attempt and pending on it. -/
def attemptStart (times : Nat → Int) (attempt : Nat) (d : Delivery) : Delivery :=
  { d with
      delivery_attempts := d.delivery_attempts + 1,
      last_attempt := some (times attempt),
      status := if 0 < attempt then DeliveryStatus.retrying else DeliveryStatus.pending }

/-- End-of-attempt bookkeeping of a failed attempt: record the error
message, and on every attempt but the last schedule next_retry from the
fixed delay table (webhook_service.py lines 123-141). -/
def failStep (times : Nat → Int) (attempt : Nat) (emsg : String) (d : Delivery) : Delivery :=
  let d2 := { d with error_message := emsg }
  if attempt < max_retry_attempts - 1 then
    { d2 with next_retry := some (times attempt + Int.ofNat (retry_delays.getD attempt 0)) }
  else d2

/-- The attempt loop of WebhookDeliveryService._deliver_webhook
(webhook_service.py lines 100-148), structurally recursive on the number
of remaining attempts, with attempt the current loop index and times the
clock at each attempt. Returns the Python result, the number of HTTP
POSTs performed, and the final delivery record. When the loop ends with
no success the record is marked failed. -/
def deliverGo (resp : Nat → HttpOutcome) (times : Nat → Int) :
    Nat → Nat → Delivery → Bool × Nat × Delivery
  | _, 0, d => (false, 0, { d with status := DeliveryStatus.failed })
  | attempt, r + 1, d =>
    let d1 := attemptStart times attempt d
    if isSuccess200 (resp attempt) then
      (true, 1, { d1 with
          status := DeliveryStatus.delivered,
          delivered_at := some (times attempt),
          error_message := "" })
    else
      let out := deliverGo resp times (attempt + 1) r
        (failStep times attempt (failMsg (resp attempt)) d1)
      (out.1, out.2.1 + 1, out.2.2)

/-- Embeds WebhookDeliveryService._deliver_webhook: the attempt loop
entered at index 0 with max_retry_attempts attempts available. -/
def deliver_webhook (resp : Nat → HttpOutcome) (times : Nat → Int)
    (delivery : Delivery) : Bool × Nat × Delivery :=
  deliverGo resp times 0 max_retry_attempts delivery

lemma failStep_delivery_attempts (times : Nat → Int) (attempt : Nat) (emsg : String)
    (d : Delivery) : (failStep times attempt emsg d).delivery_attempts = d.delivery_attempts := by
  unfold failStep
  split <;> rfl

lemma attemptStart_delivery_attempts (times : Nat → Int) (attempt : Nat) (d : Delivery) :
    (attemptStart times attempt d).delivery_attempts = d.delivery_attempts + 1 := rfl

lemma deliverGo_all_fail (resp : Nat → HttpOutcome) (times : Nat → Int)
    (hfail : ∀ n, isSuccess200 (resp n) = false) :
    ∀ (r attempt : Nat) (d : Delivery),
      (deliverGo resp times attempt r d).1 = false ∧
      (deliverGo resp times attempt r d).2.1 = r ∧
      (deliverGo resp times attempt r d).2.2.status = DeliveryStatus.failed ∧
      (deliverGo resp times attempt r d).2.2.delivery_attempts = d.delivery_attempts + r := by
  intro r
  induction r with
  | zero => intro attempt d; exact ⟨rfl, rfl, rfl, rfl⟩
  | succ r ih =>
    intro attempt d
    obtain ⟨ih1, ih2, ih3, ih4⟩ :=
      ih (attempt + 1) (failStep times attempt (failMsg (resp attempt)) (attemptStart times attempt d))
    simp only [deliverGo, hfail attempt, Bool.false_eq_true, if_false]
    refine ⟨ih1, by rw [ih2], ih3, ?_⟩
    rw [ih4, failStep_delivery_attempts, attemptStart_delivery_attempts]
    omega

lemma deliverGo_complete (resp : Nat → HttpOutcome) (times : Nat → Int) :
    ∀ (r attempt : Nat) (d : Delivery),
      (deliverGo resp times attempt r d).2.2.status = DeliveryStatus.delivered ∨
      ((deliverGo resp times attempt r d).1 = false ∧
       (deliverGo resp times attempt r d).2.2.status = DeliveryStatus.failed ∧
       (deliverGo resp times attempt r d).2.2.delivery_attempts = d.delivery_attempts + r) := by
  intro r
  induction r with
  | zero => intro attempt d; exact Or.inr ⟨rfl, rfl, rfl⟩
  | succ r ih =>
    intro attempt d
    by_cases hs : isSuccess200 (resp attempt) = true
    · left
      simp only [deliverGo, hs, if_true]
    · rw [Bool.not_eq_true] at hs
      obtain ih' | ⟨ih1, ih3, ih4⟩ :=
        ih (attempt + 1) (failStep times attempt (failMsg (resp attempt)) (attemptStart times attempt d))
      · left
        simp only [deliverGo, hs, Bool.false_eq_true, if_false]
        exact ih'
      · right
        simp only [deliverGo, hs, Bool.false_eq_true, if_false]
        refine ⟨ih1, ih3, ?_⟩
        rw [ih4, failStep_delivery_attempts, attemptStart_delivery_attempts]
        omega

/-- C4: starting from a record with zero attempts, when every POST in
the attempt loop yields a non-200 outcome, the loop makes exactly 5 HTTP
requests, reports failure, and leaves the record with status failed and
delivery_attempts = 5. -/
theorem webhook_retry_exhaustion (resp : Nat → HttpOutcome) (times : Nat → Int)
    (d : Delivery) (hfail : ∀ n, isSuccess200 (resp n) = false)
    (h0 : d.delivery_attempts = 0) :
    (deliver_webhook resp times d).1 = false ∧
    (deliver_webhook resp times d).2.1 = 5 ∧
    (deliver_webhook resp times d).2.2.status = DeliveryStatus.failed ∧
    (deliver_webhook resp times d).2.2.delivery_attempts = 5 := by
  obtain ⟨h1, h2, h3, h4⟩ := deliverGo_all_fail resp times hfail max_retry_attempts 0 d
  exact ⟨h1, h2, h3, by unfold deliver_webhook; rw [h4, h0]; rfl⟩

/-- HTTP oracle answering 500 on every request. -/
def respAll500 : Nat → HttpOutcome := fun _ => HttpOutcome.response 500 "Internal Server Error"

/-- Constant clock for concrete runs. -/
def timesZero : Nat → Int := fun _ => 0

/-- Fresh delivery record as get_or_create builds it: status pending and
zero attempts (webhook_service.py lines 37-44, model defaults). -/
def newDelivery : Delivery :=
  { status := DeliveryStatus.pending, delivery_attempts := 0, last_attempt := none,
    next_retry := none, error_message := "", delivered_at := none }

/-- Witness for the C4 theorem: a concrete always-500 endpoint exhausts
the loop at 5 attempts on a fresh record. -/
theorem webhook_retry_exhaustion_witness :
    (deliver_webhook respAll500 timesZero newDelivery).1 = false ∧
    (deliver_webhook respAll500 timesZero newDelivery).2.1 = 5 ∧
    (deliver_webhook respAll500 timesZero newDelivery).2.2.status = DeliveryStatus.failed ∧
    (deliver_webhook respAll500 timesZero newDelivery).2.2.delivery_attempts = 5 :=
  webhook_retry_exhaustion respAll500 timesZero newDelivery (fun _ => rfl) rfl

/-- SQL comparison next_retry <= now: a NULL next_retry never satisfies
it (the lte lookup of retry_failed_deliveries). -/
def optLeInt : Option Int → Int → Bool
  | none, _ => false
  | some t, now => decide (t ≤ now)

/-- Embeds the row selection of
WebhookDeliveryService.retry_failed_deliveries (webhook_service.py lines
197-202): status failed, next_retry due, and fewer attempts than
max_retry_attempts. -/
def retryEligible (now : Int) (d : Delivery) : Bool :=
  d.status == DeliveryStatus.failed && optLeInt d.next_retry now &&
    decide (d.delivery_attempts < max_retry_attempts)

/-- The queryset of retry_failed_deliveries as a list filter. -/
def retry_failed_deliveries_selection (now : Int) (ds : List Delivery) : List Delivery :=
  ds.filter (retryEligible now)

/-- C9: a record leaving a completed attempt loop is either delivered or
carries at least max_retry_attempts delivery attempts; in either case
the retry sweep's selection never picks it, because that selection
requires status failed together with delivery_attempts below the
maximum. -/
theorem failed_loop_never_retried (resp : Nat → HttpOutcome) (times : Nat → Int)
    (d : Delivery) (now : Int) :
    ((deliver_webhook resp times d).2.2.status = DeliveryStatus.delivered ∨
      max_retry_attempts ≤ (deliver_webhook resp times d).2.2.delivery_attempts) ∧
    retryEligible now (deliver_webhook resp times d).2.2 = false ∧
    retry_failed_deliveries_selection now [(deliver_webhook resp times d).2.2] = [] := by
  obtain hdel | ⟨_, hst, hat⟩ := deliverGo_complete resp times max_retry_attempts 0 d
  · have helig : retryEligible now (deliver_webhook resp times d).2.2 = false := by
      unfold retryEligible
      rw [show (deliver_webhook resp times d).2.2.status = DeliveryStatus.delivered from hdel]
      rfl
    exact ⟨Or.inl hdel, helig,
      by simp [retry_failed_deliveries_selection, helig]⟩
  · have hat' : (deliver_webhook resp times d).2.2.delivery_attempts =
        d.delivery_attempts + max_retry_attempts := hat
    have helig : retryEligible now (deliver_webhook resp times d).2.2 = false := by
      unfold retryEligible
      rw [hat']
      have : ¬ (d.delivery_attempts + max_retry_attempts < max_retry_attempts) := by omega
      simp [this]
    refine ⟨Or.inr (by rw [hat']; omega), helig,
      by simp [retry_failed_deliveries_selection, helig]⟩

/-- Per-pair delivery key: SignalDelivery is unique on the
(signal, subscriber) pair. -/
structure DeliveryKey where
  sigId : Nat
  subId : Nat
deriving DecidableEq, Repr

/-- Delivery table keyed by (signal, subscriber). -/
abbrev DeliveryDB := List (DeliveryKey × Delivery)

/-- Row lookup of get_or_create for (signal, subscriber). -/
def lookupDelivery (db : DeliveryDB) (k : DeliveryKey) : Option Delivery :=
  (db.find? (fun e => e.1 == k)).map (fun e => e.2)

/-- In-place mutation of the row with the given key. -/
def storeDelivery (db : DeliveryDB) (k : DeliveryKey) (d : Delivery) : DeliveryDB :=
  db.map (fun e => if e.1 == k then (k, d) else e)

/-- Embeds WebhookDeliveryService.deliver_signal_to_subscriber
(webhook_service.py lines 28-56): reject an empty webhook_url; then
get_or_create the (signal, subscriber) delivery row; a pre-existing row
with status delivered is an immediate no-op success; otherwise the row
goes through the attempt loop and its final state is stored. Returns the
Python result, the number of HTTP POSTs performed, and the new table. -/
def deliver_signal_to_subscriber (resp : Nat → HttpOutcome) (times : Nat → Int)
    (db : DeliveryDB) (signal : SignalRow) (sub : Subscriber) : Bool × Nat × DeliveryDB :=
  if sub.webhook_url = "" then (false, 0, db)
  else
    let k : DeliveryKey := { sigId := signal.id, subId := sub.id }
    match lookupDelivery db k with
    | some d =>
      if d.status == DeliveryStatus.delivered then (true, 0, db)
      else
        let out := deliver_webhook resp times d
        (out.1, out.2.1, storeDelivery db k out.2.2)
    | none =>
      let out := deliver_webhook resp times newDelivery
      (out.1, out.2.1, (k, out.2.2) :: db)

/-- C5 (amended): when the (signal, subscriber) pair already has a
delivery row with status delivered and the subscriber still has a
non-empty webhook_url, the call performs zero HTTP requests, leaves the
table unchanged, and returns success; since the table is returned
unchanged, a second consecutive call returns the same. -/
theorem deliver_already_delivered (resp : Nat → HttpOutcome) (times : Nat → Int)
    (db : DeliveryDB) (signal : SignalRow) (sub : Subscriber) (d : Delivery)
    (hurl : sub.webhook_url ≠ "")
    (hlook : lookupDelivery db { sigId := signal.id, subId := sub.id } = some d)
    (hst : d.status = DeliveryStatus.delivered) :
    deliver_signal_to_subscriber resp times db signal sub = (true, 0, db) := by
  unfold deliver_signal_to_subscriber
  rw [if_neg hurl]
  simp only [hlook, hst]
  rfl

/-- Delivery record already in terminal delivered state. -/
def deliveredRec : Delivery :=
  { status := DeliveryStatus.delivered, delivery_attempts := 1, last_attempt := some 10,
    next_retry := none, error_message := "", delivered_at := some 10 }

/-- Concrete subscriber with a configured webhook endpoint. -/
def subActive : Subscriber :=
  { id := 7, name := "Acme", webhook_url := "https://acme.example/hook",
    api_key := "k1", secret_key := "s1", status := SubscriberStatus.active,
    subscribed_tickers := [], min_confidence_threshold := 1/2, signal_types := [] }

/-- The same subscriber after clearing its webhook_url. -/
def subNoUrl : Subscriber :=
  { subActive with webhook_url := "" }

/-- Concrete signal for the delivery scenarios. -/
def sigC5 : SignalRow :=
  { id := 41, ticker := { symbol := "AAPL", exchange := "SMART" }
  , signal_type := SignalType.buy, confidence := 1
  , status := SignalStatus.active, expiry_time := none
  , execution_price := none, target_price := none, performance_score := none }

/-- Delivery table holding the already-delivered row for the pair. -/
def dbDelivered : DeliveryDB := [({ sigId := 41, subId := 7 }, deliveredRec)]

/-- C5 counterexample: with the delivery row already delivered but the
subscriber's webhook_url cleared, the repeated call still performs zero
HTTP requests and changes nothing, yet reports failure instead of
success, because the empty-URL rejection precedes the delivered check. -/
theorem deliver_already_delivered_counterexample :
    lookupDelivery dbDelivered { sigId := sigC5.id, subId := subNoUrl.id } = some deliveredRec ∧
    deliveredRec.status = DeliveryStatus.delivered ∧
    deliver_signal_to_subscriber respAll500 timesZero dbDelivered sigC5 subNoUrl =
      (false, 0, dbDelivered) :=
  ⟨rfl, rfl, rfl⟩

/-- Witness for the amended C5 theorem: the concrete already-delivered
pair with a configured URL is a no-op success, twice in a row. -/
theorem deliver_already_delivered_witness :
    deliver_signal_to_subscriber respAll500 timesZero dbDelivered sigC5 subActive =
      (true, 0, dbDelivered) :=
  deliver_already_delivered respAll500 timesZero dbDelivered sigC5 subActive deliveredRec
    (by decide) rfl rfl

/-- Embeds SignalGenerator._sentiment_to_score: positive 0.7, negative
-0.7, neutral 0. -/
def sentiment_to_score : Sentiment → ℚ
  | Sentiment.positive => 7/10
  | Sentiment.negative => -(7/10)
  | Sentiment.neutral => 0

/-- Embeds SignalGenerator._impact_to_score: high 1.0, medium 0.5,
low 0.2. -/
def impact_to_score : Impact → ℚ
  | Impact.high => 1
  | Impact.medium => 1/2
  | Impact.low => 1/5

/-- The Python expression (confidence or 0.5): None is falsy and so is
the float 0.0, so both fall back to 0.5; any other value passes
through. -/
def confOrHalf : Option ℚ → ℚ
  | none => 1/2
  | some x => if x == 0 then 1/2 else x

/-- One loop iteration of the scoring accumulation in
SignalGenerator._generate_gpt_signal (signal_service.py lines 102-116):
articles with both a sentiment and an impact contribute their mapped
scores, each weighted by its own confidence via (confidence or 0.5),
to the running sums and the analyzed count. -/
def gptAccum (acc : ℚ × ℚ × Nat) (a : Article) : ℚ × ℚ × Nat :=
  match a.gpt_sentiment, a.gpt_impact with
  | some s, some i =>
    (acc.1 + sentiment_to_score s * confOrHalf a.gpt_sentiment_confidence,
     acc.2.1 + impact_to_score i * confOrHalf a.gpt_impact_confidence,
     acc.2.2 + 1)
  | _, _ => acc

/-- The averaged sentiment and impact scores of _generate_gpt_signal
(signal_service.py lines 97-123): None when no article contributed,
otherwise the two running sums divided by the contribution count. -/
def gpt_signal_scores (articles : List Article) : Option (ℚ × ℚ) :=
  let t := articles.foldl gptAccum (0, 0, 0)
  if t.2.2 = 0 then none else some (t.1 / (t.2.2 : ℚ), t.2.1 / (t.2.2 : ℚ))

/-- One loop iteration of SignalGenerator._calculate_news_impact
(signal_service.py lines 558-563): articles with an impact contribute
impact_score * (impact_confidence or 0.5). -/
def newsImpactAccum (acc : ℚ × Nat) (a : Article) : ℚ × Nat :=
  match a.gpt_impact with
  | some i => (acc.1 + impact_to_score i * confOrHalf a.gpt_impact_confidence, acc.2 + 1)
  | none => acc

/-- Embeds SignalGenerator._calculate_news_impact (signal_service.py
lines 550-565): 0 when no article carries an impact, otherwise the
confidence-weighted average of the mapped impact scores. -/
def calculate_news_impact (articles : List Article) : ℚ :=
  let t := articles.foldl newsImpactAccum (0, 0)
  if t.2 = 0 then 0 else t.1 / (t.2 : ℚ)

lemma confOrHalf_degenerate (c : Option ℚ) (h : c = none ∨ c = some 0) :
    confOrHalf c = confOrHalf (some (1/2)) := by
  rcases h with h | h <;> subst h <;> simp [confOrHalf]

lemma gptAccum_degenerate (acc : ℚ × ℚ × Nat) (a : Article)
    (hs : a.gpt_sentiment_confidence = none ∨ a.gpt_sentiment_confidence = some 0)
    (hi : a.gpt_impact_confidence = none ∨ a.gpt_impact_confidence = some 0) :
    gptAccum acc a =
      gptAccum acc { a with
        gpt_sentiment_confidence := some (1/2), gpt_impact_confidence := some (1/2) } := by
  unfold gptAccum
  rw [confOrHalf_degenerate _ hs, confOrHalf_degenerate _ hi]

lemma newsImpactAccum_degenerate (acc : ℚ × Nat) (a : Article)
    (hi : a.gpt_impact_confidence = none ∨ a.gpt_impact_confidence = some 0) :
    newsImpactAccum acc a =
      newsImpactAccum acc { a with gpt_impact_confidence := some (1/2) } := by
  unfold newsImpactAccum
  rw [confOrHalf_degenerate _ hi]

/-- C10: in the GPT-path score aggregation and in the news-impact
aggregation, an article whose confidence field is missing (None) or
exactly 0 contributes exactly as if that confidence were 0.5: replacing
the degenerate confidence by 0.5 leaves the aggregate unchanged, so a
zero-confidence classification is weighted half rather than ignored. -/
theorem zero_confidence_weighted_half :
    (∀ (pre post : List Article) (a : Article),
      (a.gpt_sentiment_confidence = none ∨ a.gpt_sentiment_confidence = some 0) →
      (a.gpt_impact_confidence = none ∨ a.gpt_impact_confidence = some 0) →
      gpt_signal_scores (pre ++ a :: post) =
        gpt_signal_scores (pre ++ { a with
          gpt_sentiment_confidence := some (1/2),
          gpt_impact_confidence := some (1/2) } :: post)) ∧
    (∀ (pre post : List Article) (a : Article),
      (a.gpt_impact_confidence = none ∨ a.gpt_impact_confidence = some 0) →
      calculate_news_impact (pre ++ a :: post) =
        calculate_news_impact (pre ++ { a with
          gpt_impact_confidence := some (1/2) } :: post)) := by
  constructor
  · intro pre post a hs hi
    unfold gpt_signal_scores
    rw [List.foldl_append, List.foldl_append, List.foldl_cons, List.foldl_cons,
      gptAccum_degenerate _ a hs hi]
  · intro pre post a hi
    unfold calculate_news_impact
    rw [List.foldl_append, List.foldl_append, List.foldl_cons, List.foldl_cons,
      newsImpactAccum_degenerate _ a hi]

/-- Concrete positive high-impact article whose confidences are the
degenerate value None. -/
def articleNoConf : Article :=
  { title := "AAPL soars", content := "", summary := "", scraped_date := 999999
  , gpt_sentiment := some Sentiment.positive, gpt_sentiment_confidence := none
  , gpt_impact := some Impact.high, gpt_impact_confidence := none }

/-- Witness for the C10 theorem at the concrete one-article lists. -/
theorem zero_confidence_weighted_half_witness :
    gpt_signal_scores ([] ++ articleNoConf :: []) =
      gpt_signal_scores ([] ++ { articleNoConf with
        gpt_sentiment_confidence := some (1/2),
        gpt_impact_confidence := some (1/2) } :: []) ∧
    calculate_news_impact ([] ++ articleNoConf :: []) =
      calculate_news_impact ([] ++ { articleNoConf with
        gpt_impact_confidence := some (1/2) } :: []) :=
  ⟨zero_confidence_weighted_half.1 [] [] articleNoConf (Or.inl rfl) (Or.inl rfl),
   zero_confidence_weighted_half.2 [] [] articleNoConf (Or.inl rfl)⟩
